import Mathlib

/-!
Shallow embedding of `src/app.py` (accessibility testing tool).

The embedded core is `AccessibilityTester.capture_accessibility_test`
(app.py lines 114-240) together with the pure helper `format_filename`
(lines 108-112).  External browser operations (driver setup, page
navigation, waits, element lookups, clicks, screenshot capture) and the
caller-supplied progress callback are modelled by an environment record
`Env`: each fallible operation is an `Option String`, where `none` means
the operation succeeds and `some e` means it raises an exception whose
string rendering is `e` (Python f-strings embed `str(e)` in the
messages).

A run produces the returned triple `(success, message, screenshot_path)`
exactly as the Python code constructs it, together with a `Trace`
recording the observable events the specification speaks about: the
percent values passed to the progress callback, the stages entered,
whether the screenshot file was written, and how many times
`driver.quit` was invoked.
-/

/-- Stages of the orchestration, in the order the code enters them
(spec section 4.3).  A stage is recorded when its first operation in
`capture_accessibility_test` begins. -/
inductive Stage where
  | navigate
  | consent
  | scanWait
  | switchContext
  | screenshot1
  | findReportButton
  | triggerReport
  | formWait
  | formFill
  | submitStage
deriving DecidableEq, Repr

/-- Observable events of one run: percent values passed to the progress
callback (in order of invocation), stages entered (in order), whether
`save_screenshot` wrote the file, and how many times `driver.quit` was
invoked. -/
structure Trace where
  progress : List Nat
  stages : List Stage
  shotWritten : Bool
  quitCount : Nat
deriving DecidableEq, Repr

def Trace.empty : Trace := ⟨[], [], false, 0⟩

def Trace.enter (t : Trace) (s : Stage) : Trace :=
  { t with stages := t.stages ++ [s] }

/-- Outcome of the cookie-consent block (app.py lines 135-145): the
banner is found and clicked successfully, the click raises, or the
ten-second wait times out / raises because no banner exists. -/
inductive ConsentEnv where
  | absent
  | foundClickOk
  | foundClickFault
deriving DecidableEq, Repr

/-- Environment of one run: the behaviour of every external operation
`capture_accessibility_test` performs.  A field of type `Option String`
is `none` when the operation succeeds and `some e` when it raises an
exception rendered as `e`.  `cb = none` models `progress_callback=None`;
`cb = some f` models a supplied callback where `f p` tells whether the
invocation at percent `p` raises (Python callables may raise). -/
structure Env where
  /-- Result of `setup_driver` (app.py lines 75-90): `True` or `False`. -/
  setupOk : Bool
  /-- Outcome of `driver.get(full_url)` (line 129). -/
  getOk : Option String
  /-- Outcome of the consent block (lines 135-145). -/
  consent : ConsentEnv
  /-- Outcome of the 30s wait for the scan iframe (line 152). -/
  iframeWaitOk : Option String
  /-- Outcome of `find_element` for the iframe (line 161). -/
  iframeFindOk : Option String
  /-- Outcome of `switch_to.frame` (line 162). -/
  switchOk : Option String
  /-- Outcome of `driver.save_screenshot` (line 171). -/
  screenshotOk : Option String
  /-- Outcome of the 10s wait for the report button (lines 176-178). -/
  reportBtnWaitOk : Option String
  /-- Outcome of find + scripted click of the report button (lines 185-186). -/
  reportBtnClickOk : Option String
  /-- Outcome of the 30s wait for the popup form name field (line 200). -/
  formWaitOk : Option String
  /-- Outcome of `send_keys(username)` into the name field (line 207). -/
  nameFillOk : Option String
  /-- Outcome of `send_keys(email)` into the email field (line 208). -/
  emailFillOk : Option String
  /-- Outcome of find + scripted click of the submit button (lines 219-220). -/
  submitOk : Option String
  /-- Progress callback: absent, or a function giving the fault of each
  invocation. -/
  cb : Option (Nat → Option String)

/-- Result triple returned by `capture_accessibility_test`:
`(success, message, screenshot_path)`. -/
abbrev TestResult := Bool × String × Option String

/-- Message of app.py line 117. -/
def msgSetup : String := "Failed to setup browser driver"

/-- Message of app.py line 236 (outer handler). -/
def msgUnknown (e : String) : String := "An error occurred: " ++ e

/-- Message of app.py line 181. -/
def msgBtnNotFound : String := "\x27Get Free Report\x27 button not found"

/-- Message of app.py line 189. -/
def msgBtnClick (e : String) : String :=
  "Error clicking \x27Get Free Report\x27 button: " ++ e

/-- Message of app.py line 203. -/
def msgFormWait (e : String) : String := "Popup form did not appear: " ++ e

/-- Message of app.py line 212. -/
def msgFormFill (e : String) : String := "Error filling form fields: " ++ e

/-- Message of app.py line 232. -/
def msgSubmit (e : String) : String := "Error submitting form: " ++ e

/-- Message of app.py line 228. -/
def msgSuccess (target_url email : String) : String :=
  "Report for URL: " ++ target_url ++ " sent to email: " ++ email

/-- Embedding of `re.sub(r"https?://", "", url)`: scan left to right and
remove each non-overlapping occurrence of `https://` or `http://`. -/
def stripScheme : List Char → List Char
  | 'h' :: 't' :: 't' :: 'p' :: 's' :: ':' :: '/' :: '/' :: rest => stripScheme rest
  | 'h' :: 't' :: 't' :: 'p' :: ':' :: '/' :: '/' :: rest => stripScheme rest
  | c :: rest => c :: stripScheme rest
  | [] => []

/-- Embedding of Python `str.strip("/")`: drop leading and trailing `/`. -/
def stripSlashes (l : List Char) : List Char :=
  ((l.dropWhile (fun c => c = '/')).reverse.dropWhile (fun c => c = '/')).reverse

/-- Word character in the sense of the regex class `\w` (which subsumes
`\d`), restricted to its ASCII fragment: letters, digits, underscore.
Line 111 of app.py removes every character outside this class. -/
def isWordChar (c : Char) : Bool := c.isAlphanum || c = '_'

/-- Embedding of `format_filename` (app.py lines 108-112): strip the URL
scheme, strip surrounding slashes, keep only word characters. -/
def format_filename (url : String) : String :=
  ⟨(stripSlashes (stripScheme url.toList)).filter isWordChar⟩

/-- Screenshot file name built at app.py line 170. -/
def screenshotName (target_url : String) : String :=
  "accessibility_results_" ++ format_filename target_url ++ ".png"

/-- Embedding of the consent block (app.py lines 136-145): the wait, the
click fault and the absence of the banner are all absorbed by the bare
`except Exception` clause, whose handler only logs; every outcome
returns normally and has no further observable effect. -/
def handleConsent : ConsentEnv → Unit
  | ConsentEnv.absent => ()
  | ConsentEnv.foundClickOk => ()
  | ConsentEnv.foundClickFault => ()

/-- Values a guarded callback invocation
(`if progress_callback: progress_callback(p, msg)`) passes to the
callback: nothing when no callback is supplied, the single percent `p`
when one is. -/
def cbMark (cb : Option (Nat → Option String)) (p : Nat) : List Nat :=
  match cb with
  | none => []
  | some _f => [p]

/-- Fault of a guarded callback invocation: `none` when no callback is
supplied or the call returns normally, `some e` when the invocation at
percent `p` raises `e`. -/
def cbFault (cb : Option (Nat → Option String)) (p : Nat) : Option String :=
  match cb with
  | none => none
  | some f => f p

/-- Trace effect of a guarded callback invocation: the percent passed,
if any, is appended to the progress record. -/
def cbTrace (cb : Option (Nat → Option String)) (p : Nat) (t : Trace) : Trace :=
  { t with progress := t.progress ++ cbMark cb p }

/-- Embedding of the protected region of `capture_accessibility_test`
(app.py lines 119-232, the body of the outer `try`).  `Except.error e`
means an exception escaped to the outer handler at line 234;
`Except.ok r` means one of the explicit `return` statements ran. -/
def body (env : Env) (target_url username email : String) :
    Trace × Except String TestResult :=
  let t := cbTrace env.cb 10 Trace.empty
  match cbFault env.cb 10 with
  | some e => (t, Except.error e)
  | none =>
  let t := t.enter Stage.navigate
  match env.getOk with
  | some e => (t, Except.error e)
  | none =>
  let t := cbTrace env.cb 20 t
  match cbFault env.cb 20 with
  | some e => (t, Except.error e)
  | none =>
  let t := t.enter Stage.consent
  let _u : Unit := handleConsent env.consent
  let t := cbTrace env.cb 30 t
  match cbFault env.cb 30 with
  | some e => (t, Except.error e)
  | none =>
  let t := t.enter Stage.scanWait
  match env.iframeWaitOk with
  | some e => (t, Except.error e)
  | none =>
  let t := cbTrace env.cb 50 t
  match cbFault env.cb 50 with
  | some e => (t, Except.error e)
  | none =>
  let t := t.enter Stage.switchContext
  match env.iframeFindOk with
  | some e => (t, Except.error e)
  | none =>
  match env.switchOk with
  | some e => (t, Except.error e)
  | none =>
  let t := cbTrace env.cb 70 t
  match cbFault env.cb 70 with
  | some e => (t, Except.error e)
  | none =>
  let t := t.enter Stage.screenshot1
  let path := screenshotName target_url
  match env.screenshotOk with
  | some e => (t, Except.error e)
  | none =>
  let t := { t with shotWritten := true }
  let t := t.enter Stage.findReportButton
  match env.reportBtnWaitOk with
  | some _e => (t, Except.ok (false, msgBtnNotFound, some path))
  | none =>
  let t := t.enter Stage.triggerReport
  match env.reportBtnClickOk with
  | some e => (t, Except.ok (false, msgBtnClick e, some path))
  | none =>
  let t := cbTrace env.cb 80 t
  match cbFault env.cb 80 with
  | some e => (t, Except.error e)
  | none =>
  let t := t.enter Stage.formWait
  match env.formWaitOk with
  | some e => (t, Except.ok (false, msgFormWait e, some path))
  | none =>
  let t := t.enter Stage.formFill
  match env.nameFillOk with
  | some e => (t, Except.ok (false, msgFormFill e, some path))
  | none =>
  match env.emailFillOk with
  | some e => (t, Except.ok (false, msgFormFill e, some path))
  | none =>
  let t := cbTrace env.cb 90 t
  match cbFault env.cb 90 with
  | some e => (t, Except.error e)
  | none =>
  let t := t.enter Stage.submitStage
  match env.submitOk with
  | some e => (t, Except.ok (false, msgSubmit e, some path))
  | none =>
  let t := cbTrace env.cb 100 t
  match cbFault env.cb 100 with
  | some e => (t, Except.ok (false, msgSubmit e, some path))
  | none =>
  (t, Except.ok (true, msgSuccess target_url email, some path))

/-- Embedding of `capture_accessibility_test` (app.py lines 114-240).
When `setup_driver` fails the function returns at line 117, before the
`try`/`finally`, so no `driver.quit` runs.  Otherwise the body runs
under the outer handler (line 234, which maps any escaped exception `e`
to `(False, msgUnknown e, None)`) and the `finally` clause (lines
238-240) invokes `driver.quit` once, since `self.driver` is set. -/
def capture_accessibility_test (env : Env) (target_url username email : String) :
    TestResult × Trace :=
  if env.setupOk = false then
    ((false, msgSetup, none), Trace.empty)
  else
    let r := body env target_url username email
    let res : TestResult :=
      match r.2 with
      | Except.ok x => x
      | Except.error e => (false, msgUnknown e, none)
    (res, { r.1 with quitCount := r.1.quitCount + 1 })

/-- Fixed checkpoint sequence of the progress callback (spec section 6):
the percents appear in the code in this order. -/
def checkpoints : List Nat := [10, 20, 30, 50, 70, 80, 90, 100]

/-- Environment in which every external operation succeeds and no
callback is supplied. -/
def allOk : Env :=
  { setupOk := true
    getOk := none
    consent := ConsentEnv.absent
    iframeWaitOk := none
    iframeFindOk := none
    switchOk := none
    screenshotOk := none
    reportBtnWaitOk := none
    reportBtnClickOk := none
    formWaitOk := none
    nameFillOk := none
    emailFillOk := none
    submitOk := none
    cb := none }

def urlEx : String := "https://example.com"

def nameEx : String := "John Doe"

def emailEx : String := "john@example.com"

/-- Environment in which navigation (`driver.get`) raises. -/
def envGetFail : Env := { allOk with getOk := some ("net::ERR_NAME_NOT_RESOLVED") }

/-- Environment in which the report button never appears. -/
def envBtnFail : Env := { allOk with reportBtnWaitOk := some ("timeout") }

/-- Environment in which `save_screenshot` raises. -/
def envShotFail : Env := { allOk with screenshotOk := some ("disk full") }

/-- Progress callback that raises when invoked at percent 80. -/
def cbCrash80 : Nat → Option String :=
  fun p => if p = 80 then some ("callback crashed") else none

/-- Environment in which everything succeeds except the progress
callback invocation at 80. -/
def envCb80 : Env := { allOk with cb := some cbCrash80 }

/-- Progress callback that raises when invoked at percent 100. -/
def cbCrash100 : Nat → Option String :=
  fun p => if p = 100 then some ("callback crashed") else none

/-- Environment in which everything succeeds except the progress
callback invocation at 100. -/
def envCb100 : Env := { allOk with cb := some cbCrash100 }

/-- Environment with a supplied callback that never raises. -/
def envCbOk : Env := { allOk with cb := some (fun _ => none) }

/-- Environment in which driver setup fails. -/
def envNoSetup : Env := { allOk with setupOk := false }

example : format_filename urlEx = "examplecom" := by rfl

example : format_filename ("http://a_b") = "a_b" := by rfl

example :
    (capture_accessibility_test allOk urlEx nameEx emailEx).1 =
      (true, "Report for URL: https://example.com sent to email: john@example.com",
        some ("accessibility_results_examplecom.png")) := by rfl

theorem body_quitCount (env : Env) (u n m : String) :
    (body env u n m).1.quitCount = 0 := by
  unfold body
  dsimp only
  repeat first | rfl | split

theorem body_progress_within (env : Env) (u n m : String) :
    (body env u n m).1.progress <+: checkpoints := by
  unfold body cbTrace cbFault cbMark
  cases env.cb <;> dsimp only <;>
    repeat first | decide | (split <;> try dsimp only [Trace.enter, Trace.empty])

theorem consent_irrel (env : Env) (c : ConsentEnv) (u n m : String) :
    capture_accessibility_test { env with consent := c } u n m =
      capture_accessibility_test env u n m := by
  cases env
  rfl

theorem body_result_cb (env : Env) (u n m : String) (f : Nat → Option String)
    (hf : ∀ p, f p = none) :
    (body { env with cb := some f } u n m).2 = (body { env with cb := none } u n m).2 := by
  cases env
  unfold body cbTrace cbFault cbMark
  simp only [hf]
  repeat first | rfl | (split <;> try dsimp only)

theorem run_result_of_body (env₁ env₂ : Env) (u n m : String)
    (hb : (body env₁ u n m).2 = (body env₂ u n m).2)
    (hs : env₁.setupOk = env₂.setupOk) :
    (capture_accessibility_test env₁ u n m).1 = (capture_accessibility_test env₂ u n m).1 := by
  simp only [capture_accessibility_test]
  rw [hs, hb]
  cases hr : (body env₂ u n m).2 <;> simp only [hr] <;> split <;> rfl

theorem run_setup_fail (env : Env) (u n m : String) (h : env.setupOk = false) :
    capture_accessibility_test env u n m = ((false, msgSetup, none), Trace.empty) := by
  unfold capture_accessibility_test
  simp [h]

theorem run_result_ok (env : Env) (u n m : String) (x : TestResult)
    (hs : env.setupOk = true) (hx : (body env u n m).2 = Except.ok x) :
    (capture_accessibility_test env u n m).1 = x := by
  simp [capture_accessibility_test, hs, hx]

theorem run_result_err (env : Env) (u n m : String) (e : String)
    (hs : env.setupOk = true) (hx : (body env u n m).2 = Except.error e) :
    (capture_accessibility_test env u n m).1 = (false, msgUnknown e, none) := by
  simp [capture_accessibility_test, hs, hx]

theorem run_trace_eq (env : Env) (u n m : String) (hs : env.setupOk = true) :
    (capture_accessibility_test env u n m).2.stages = (body env u n m).1.stages ∧
    (capture_accessibility_test env u n m).2.progress = (body env u n m).1.progress ∧
    (capture_accessibility_test env u n m).2.shotWritten = (body env u n m).1.shotWritten := by
  simp [capture_accessibility_test, hs]

theorem body_ok_path (env : Env) (u n m : String) (x : TestResult)
    (hx : (body env u n m).2 = Except.ok x) : x.2.2 = some (screenshotName u) := by
  unfold body cbTrace cbFault cbMark at hx
  revert hx
  rcases hc : env.cb with _ | f <;>
    (dsimp only;
     repeat first
       | rfl
       | (intro hx; exact Except.noConfusion hx)
       | (intro hx; injection hx with hx; rw [← hx])
       | (split <;> try dsimp only))

theorem body_scanWait (env : Env) (u n m : String) (hg : env.getOk = none)
    (hcb : ∀ f, env.cb = some f → f 10 = none ∧ f 20 = none ∧ f 30 = none) :
    Stage.scanWait ∈ (body env u n m).1.stages := by
  unfold body cbTrace cbFault cbMark
  rcases hc : env.cb with _ | f
  · simp only [hg]
    try dsimp only
    repeat first | decide | (split <;> try dsimp only)
  · obtain ⟨h10, h20, h30⟩ := hcb f hc
    simp only [hg, h10, h20, h30]
    try dsimp only
    repeat first | decide | (split <;> try dsimp only)

theorem body_100 (env : Env) (u n m : String)
    (h : 100 ∈ (body env u n m).1.progress) :
    (body env u n m).2 = Except.ok (true, msgSuccess u m, some (screenshotName u)) ∨
      ∃ f, env.cb = some f ∧ f 100 ≠ none := by
  revert h
  unfold body cbTrace cbFault cbMark
  rcases hc : env.cb with _ | f
  · dsimp only
    repeat first
      | (refine fun h => absurd h ?_; decide)
      | (split <;> try dsimp only)
  · dsimp only
    repeat first
      | (refine fun h => absurd h ?_; decide)
      | (split <;> try dsimp only)
    all_goals intro hmem
    all_goals try (exact Or.inl rfl)
    all_goals try (refine Or.inr ⟨f, rfl, ?_⟩; simp_all)

theorem body_shot_fail (env : Env) (u n m : String) (e : String)
    (he : env.screenshotOk = some e) :
    (∃ e2, (body env u n m).2 = Except.error e2) ∧
      Stage.findReportButton ∉ (body env u n m).1.stages := by
  unfold body cbTrace cbFault cbMark
  rcases hc : env.cb with _ | f <;>
    (simp only [he];
     try dsimp only;
     repeat first
       | (refine ⟨⟨_, rfl⟩, ?_⟩; decide)
       | (split <;> try dsimp only))

/-- Claim C1 amendment: for every run in which the screenshot file was
written and the protected region exited through one of its explicit
`return` statements (so no exception escaped to the outer handler), the
returned result carries the non-none screenshot path, whatever the
success value.  The claim as frozen is refuted by
`c1_outer_fault_counterexample`: a failure that reaches the outermost
exception handler after the screenshot (possible through a faulting
progress callback) yields `screenshot_path = none`, because line 236 of
app.py returns `None` unconditionally. -/
theorem c1_screenshot_path_surfaced_on_return (env : Env) (u n m : String)
    (hw : (capture_accessibility_test env u n m).2.shotWritten = true)
    (hok : ∃ x, (body env u n m).2 = Except.ok x) :
    (capture_accessibility_test env u n m).1.2.2 = some (screenshotName u) := by
  obtain ⟨x, hx⟩ := hok
  by_cases hs : env.setupOk = true
  · rw [run_result_ok env u n m x hs hx]
    exact body_ok_path env u n m x hx
  · rw [run_setup_fail env u n m (by simpa using hs)] at hw
    simp [Trace.empty] at hw

/-- Witness for C1: with the report button missing, the run fails after
the screenshot and the path is still surfaced. -/
theorem c1_screenshot_path_surfaced_on_return_witness :
    (capture_accessibility_test envBtnFail urlEx nameEx emailEx).1.2.2 =
      some (screenshotName urlEx) :=
  c1_screenshot_path_surfaced_on_return envBtnFail urlEx nameEx emailEx rfl
    ⟨(false, msgBtnNotFound, some (screenshotName urlEx)), rfl⟩

/-- Counterexample to C1 as frozen: the screenshot file is written, a
later failure (the progress callback invocation at 80 raising) is caught
by the outermost exception handler, and the returned result carries
`screenshot_path = none`, not the screenshot path. -/
theorem c1_outer_fault_counterexample :
    ((capture_accessibility_test envCb80 urlEx nameEx emailEx).2.shotWritten = true) ∧
    ((capture_accessibility_test envCb80 urlEx nameEx emailEx).1.1 = false) ∧
    ((capture_accessibility_test envCb80 urlEx nameEx emailEx).1.2.2 = none) := by
  refine ⟨rfl, rfl, rfl⟩

/-- Claim C2: on every exit path of a run in which a browser session was
created (`setupOk = true`), `driver.quit` is invoked exactly once; when
setup failed, no quit is attempted.  The `finally` clause of app.py
lines 238-240 runs on every exit of the `try`, and the early return at
line 117 precedes the `try`. -/
theorem c2_driver_quit_once_iff_session (env : Env) (u n m : String) :
    (capture_accessibility_test env u n m).2.quitCount = cond env.setupOk 1 0 := by
  unfold capture_accessibility_test
  cases h : env.setupOk <;> simp [h, Trace.empty, body_quitCount]

/-- Claim C3 amendment: over any run, the percent values passed to the
progress callback are non-decreasing, bounded by 100 and drawn from the
fixed checkpoints; and a run that emits 100 either returns
`success = true` or has a progress callback whose invocation at 100
itself raised (in which case app.py line 230 catches the fault and
returns `success = false` although 100 was already passed to the
callback).  The claim as frozen (100 emitted only on `success = true`
runs) is refuted by `c3_progress_100_on_failure_counterexample`. -/
theorem c3_progress_monotone_checkpoints (env : Env) (u n m : String) :
    List.Chain' (fun a b => a ≤ b) (capture_accessibility_test env u n m).2.progress ∧
    ((capture_accessibility_test env u n m).2.progress.all
      (fun p => decide (p ≤ 100) && checkpoints.contains p)) = true ∧
    ((100 ∈ (capture_accessibility_test env u n m).2.progress) →
      (capture_accessibility_test env u n m).1.1 = true ∨
        ∃ f, env.cb = some f ∧ f 100 ≠ none) := by
  by_cases hs : env.setupOk = true
  · have hpre : (capture_accessibility_test env u n m).2.progress <+:
        checkpoints := by
      rw [(run_trace_eq env u n m hs).2.1]
      exact body_progress_within env u n m
    refine ⟨?_, ?_, ?_⟩
    · exact List.Chain'.prefix (by simp [checkpoints]) hpre
    · refine List.all_eq_true.mpr ?_
      intro p hp
      have hpc : p ∈ checkpoints := hpre.subset hp
      fin_cases hpc <;> decide
    · intro h100
      rw [(run_trace_eq env u n m hs).2.1] at h100
      rcases body_100 env u n m h100 with hok | hcb
      · rw [run_result_ok env u n m _ hs hok]
        exact Or.inl rfl
      · exact Or.inr hcb
  · rw [run_setup_fail env u n m (by simpa using hs)]
    refine ⟨by simp [Trace.empty], by decide, ?_⟩
    intro h100
    exact absurd h100 (by decide)

/-- Witness for C3: a run with a never-faulting callback emits 100 and
satisfies the disjunction through `success = true`. -/
theorem c3_progress_monotone_checkpoints_witness :
    (100 ∈ (capture_accessibility_test envCbOk urlEx nameEx emailEx).2.progress) ∧
    ((capture_accessibility_test envCbOk urlEx nameEx emailEx).1.1 = true ∨
      ∃ f, envCbOk.cb = some f ∧ f 100 ≠ none) :=
  ⟨by decide, (c3_progress_monotone_checkpoints envCbOk urlEx nameEx emailEx).2.2 (by decide)⟩

/-- Counterexample to C3 as frozen: when the progress callback raises at
its 100-percent invocation, the value 100 has been passed to the
callback yet the run returns `success = false`. -/
theorem c3_progress_100_on_failure_counterexample :
    (100 ∈ (capture_accessibility_test envCb100 urlEx nameEx emailEx).2.progress) ∧
    (capture_accessibility_test envCb100 urlEx nameEx emailEx).1.1 = false := by
  refine ⟨by decide, rfl⟩

/-- Claim C4 amendment: a fault in the `save_screenshot` call at stage
SCREENSHOT_1 is fatal, not non-fatal: app.py line 171 is not wrapped in
any local handler, so the exception escapes to the outermost handler;
the run returns `success = false` with `screenshot_path = none` and the
FIND_REPORT_BUTTON stage onward is never attempted.  The claim as
frozen is refuted by `c4_screenshot_fault_counterexample`. -/
theorem c4_screenshot_fault_terminal (env : Env) (u n m : String) (e : String)
    (he : env.screenshotOk = some e) :
    (capture_accessibility_test env u n m).1.1 = false ∧
    (capture_accessibility_test env u n m).1.2.2 = none ∧
    Stage.findReportButton ∉ (capture_accessibility_test env u n m).2.stages := by
  by_cases hs : env.setupOk = true
  · obtain ⟨⟨e2, herr⟩, hnf⟩ := body_shot_fail env u n m e he
    rw [run_result_err env u n m e2 hs herr, (run_trace_eq env u n m hs).1]
    exact ⟨rfl, rfl, hnf⟩
  · rw [run_setup_fail env u n m (by simpa using hs)]
    refine ⟨rfl, rfl, by decide⟩

/-- Witness for C4 amendment at a concrete environment. -/
theorem c4_screenshot_fault_terminal_witness :
    (capture_accessibility_test envShotFail urlEx nameEx emailEx).1.1 = false ∧
    (capture_accessibility_test envShotFail urlEx nameEx emailEx).1.2.2 = none ∧
    Stage.findReportButton ∉
      (capture_accessibility_test envShotFail urlEx nameEx emailEx).2.stages :=
  c4_screenshot_fault_terminal envShotFail urlEx nameEx emailEx ("disk full") rfl

/-- Counterexample to C4 as frozen: with every operation succeeding
except `save_screenshot`, the run terminates through the outer handler
with `screenshot_path = none` and never enters FIND_REPORT_BUTTON; it
does not continue to the subsequent stages. -/
theorem c4_screenshot_fault_counterexample :
    ((capture_accessibility_test envShotFail urlEx nameEx emailEx).1 =
      (false, msgUnknown ("disk full"), none)) ∧
    (Stage.findReportButton ∉
      (capture_accessibility_test envShotFail urlEx nameEx emailEx).2.stages) := by
  refine ⟨rfl, by decide⟩

/-- Claim C5 amendment: `format_filename` is deterministic (it is a pure
function of its argument) and every character of its output is a word
character (letter, digit or underscore).  The claim as frozen says the
output is always alphanumeric; it is refuted by
`c5_format_filename_underscore_counterexample`, since the regex class
`[^\w\d]` of app.py line 111 keeps underscores. -/
theorem c5_format_filename_deterministic_wordchars (u : String) :
    format_filename u = format_filename u ∧
    ((format_filename u).toList.all isWordChar) = true := by
  refine ⟨rfl, ?_⟩
  simp only [format_filename]
  simp [List.all_eq_true, List.mem_filter]

/-- Counterexample to C5 as frozen: an underscore in the URL survives
into the output and is not alphanumeric. -/
theorem c5_format_filename_underscore_counterexample :
    ('_' ∈ (format_filename ("http://a_b")).toList) ∧ ('_'.isAlphanum = false) := by
  decide

/-- Claim C6: when browser-session setup fails the run returns
`success = false`, the exact message of app.py line 117 and
`screenshot_path = none`, with no stage entered and no progress
reported. -/
theorem c6_setup_failure_terminal (env : Env) (u n m : String)
    (h : env.setupOk = false) :
    (capture_accessibility_test env u n m).1 = (false, msgSetup, none) ∧
    (capture_accessibility_test env u n m).2.stages = [] ∧
    (capture_accessibility_test env u n m).2.progress = [] := by
  rw [run_setup_fail env u n m h]
  exact ⟨rfl, rfl, rfl⟩

/-- Witness for C6 at a concrete environment. -/
theorem c6_setup_failure_terminal_witness :
    (capture_accessibility_test envNoSetup urlEx nameEx emailEx).1 = (false, msgSetup, none) ∧
    (capture_accessibility_test envNoSetup urlEx nameEx emailEx).2.stages = [] ∧
    (capture_accessibility_test envNoSetup urlEx nameEx emailEx).2.progress = [] :=
  c6_setup_failure_terminal envNoSetup urlEx nameEx emailEx rfl

/-- Claim C7: the consent-block outcome (banner absent, dismissed, or
click fault, all absorbed by app.py lines 136-145) has no effect on the
run: any two consent outcomes give identical results and traces, and the
run proceeds to SCAN_WAIT whenever navigation succeeded and the early
callback invocations did not fault. -/
theorem c7_consent_noninterference (env : Env) (u n m : String) (c1 c2 : ConsentEnv)
    (hs : env.setupOk = true) (hg : env.getOk = none)
    (hcb : ∀ f, env.cb = some f → f 10 = none ∧ f 20 = none ∧ f 30 = none) :
    capture_accessibility_test { env with consent := c1 } u n m =
      capture_accessibility_test { env with consent := c2 } u n m ∧
    Stage.scanWait ∈ (capture_accessibility_test { env with consent := c1 } u n m).2.stages := by
  refine ⟨(consent_irrel env c1 u n m).trans (consent_irrel env c2 u n m).symm, ?_⟩
  rw [consent_irrel env c1 u n m, (run_trace_eq env u n m hs).1]
  exact body_scanWait env u n m hg hcb

/-- Witness for C7: absent versus dismissed consent dialog at a concrete
environment. -/
theorem c7_consent_noninterference_witness :
    (capture_accessibility_test { allOk with consent := ConsentEnv.absent } urlEx nameEx emailEx =
      capture_accessibility_test { allOk with consent := ConsentEnv.foundClickOk } urlEx nameEx emailEx) ∧
    Stage.scanWait ∈ (capture_accessibility_test { allOk with consent := ConsentEnv.absent }
      urlEx nameEx emailEx).2.stages :=
  c7_consent_noninterference allOk urlEx nameEx emailEx ConsentEnv.absent ConsentEnv.foundClickOk
    rfl rfl (fun _f hf => Option.noConfusion hf)

/-- Claim C8: with target `https://example.com` and all stages
succeeding, the run returns `success = true`, a message containing
`example.com` and the email, and the screenshot path
`accessibility_results_examplecom.png`. -/
theorem c8_example_com_success :
    (capture_accessibility_test allOk urlEx nameEx emailEx).1.1 = true ∧
    (capture_accessibility_test allOk urlEx nameEx emailEx).1.2.2 =
      some ("accessibility_results_examplecom.png") ∧
    (∃ a b, (capture_accessibility_test allOk urlEx nameEx emailEx).1.2.1 =
      a ++ "example.com" ++ b) ∧
    (∃ a b, (capture_accessibility_test allOk urlEx nameEx emailEx).1.2.1 =
      a ++ emailEx ++ b) := by
  refine ⟨rfl, rfl, ⟨"Report for URL: https://", " sent to email: john@example.com", ?_⟩,
    ⟨"Report for URL: https://example.com sent to email: ", "", ?_⟩⟩ <;> rfl

/-- Claim C9: a result triple is always constructed (the embedding is a
total function), and any exception escaping the protected region is
caught at the outermost boundary and mapped to `success = false` with
the underlying message preserved inside the result message
(app.py lines 234-236). -/
theorem c9_result_always_constructed (env : Env) (u n m : String) :
    (∃ s msg p tr, capture_accessibility_test env u n m = ((s, msg, p), tr)) ∧
    (env.setupOk = true → ∀ e, (body env u n m).2 = Except.error e →
      (capture_accessibility_test env u n m).1 = (false, msgUnknown e, none)) := by
  constructor
  · exact ⟨_, _, _, _, rfl⟩
  · intro hs e he
    exact run_result_err env u n m e hs he

/-- Witness for C9: a navigation fault is preserved in the result
message. -/
theorem c9_result_always_constructed_witness :
    (capture_accessibility_test envGetFail urlEx nameEx emailEx).1 =
      (false, msgUnknown ("net::ERR_NAME_NOT_RESOLVED"), none) :=
  (c9_result_always_constructed envGetFail urlEx nameEx emailEx).2 rfl _ rfl

/-- Claim C10: the returned triple does not depend on whether a progress
callback is supplied, as long as the callback does not itself raise:
every invocation is guarded by `if progress_callback:` and no callback
value flows into the result. -/
theorem c10_callback_noninterference (env : Env) (u n m : String)
    (f : Nat → Option String) (hf : ∀ p, f p = none) :
    (capture_accessibility_test { env with cb := some f } u n m).1 =
      (capture_accessibility_test { env with cb := none } u n m).1 := by
  exact run_result_of_body _ _ u n m (body_result_cb env u n m f hf) rfl

/-- Witness for C10 at a concrete environment. -/
theorem c10_callback_noninterference_witness :
    (capture_accessibility_test { allOk with cb := some (fun _ => none) } urlEx nameEx emailEx).1 =
      (capture_accessibility_test { allOk with cb := none } urlEx nameEx emailEx).1 :=
  c10_callback_noninterference allOk urlEx nameEx emailEx (fun _ => none) (fun _ => rfl)
